import Mathlib

/-!
Verification of the media-asset lifecycle subsystem of the Patwa.Toli backend.

The development shallowly embeds the Cloudinary helper functions
(`uploadToCloudinary`, `deleteFromCloudinary`, `getPublicIdFromUrl` from
`backend/controllers/cloudinaryHelper.js`), the upload middleware
configuration (`backend/middleware/uploadMiddleware.js`) and the media-relevant
slices of the controller handlers (create / update / delete for stories,
events, businesses, posts, and user profiles).  Remote and database
interactions are recorded as an explicit event trace; the remote store's
responses are passed in as oracle arguments, so each handler is a pure
function from its inputs and the remote outcomes to a trace and a result.
-/

namespace PatwaToli

/-! ## JavaScript string primitives

`getPublicIdFromUrl` in the source uses `String.prototype.includes`,
`split('/')`, `Array.prototype.indexOf` / `findIndex`, `slice` + `join('/')`
and `lastIndexOf('.')`.  We model strings as `List Char` at the core and
re-implement those primitives faithfully. -/

/-- JS `hay.includes(needle)`: `true` iff `needle` occurs as a contiguous
substring of `hay` (the empty needle always occurs). -/
def containsSub (needle : List Char) : List Char → Bool
  | [] => needle.isEmpty
  | x :: xs => needle.isPrefixOf (x :: xs) || containsSub needle xs

/-- JS `s.split(c)` for a one-character separator: empty segments are kept and
`"".split(c)` is `[""]`. -/
def splitOnChar (c : Char) : List Char → List (List Char)
  | [] => [[]]
  | x :: xs =>
    let rest := splitOnChar c xs
    if x = c then [] :: rest else (x :: rest.headI) :: rest.tail

/-- JS `Array.prototype.findIndex` (and `indexOf` when the predicate is an
equality test), with `none` standing for the JS result `-1`. -/
def jsFindIndex {α : Type} (p : α → Bool) : List α → Option Nat
  | [] => none
  | x :: xs => if p x then some 0 else (jsFindIndex p xs).map (· + 1)

/-- JS whitespace skipped by `parseInt`. -/
def jsWhitespace (c : Char) : Bool :=
  c = ' ' || c = '\t' || c = '\n' || c = '\r' ||
  c = Char.ofNat 11 || c = Char.ofNat 12 || c = Char.ofNat 160

/-- Hexadecimal digit, as accepted after a `0x` prefix by JS `parseInt`. -/
def hexDigit (c : Char) : Bool :=
  c.isDigit || ('a' ≤ c && c ≤ 'f') || ('A' ≤ c && c ≤ 'F')

/-- JS `!isNaN(parseInt(s))`: after optional whitespace and an optional sign,
either a `0x`/`0X` prefix followed by a hex digit, or a decimal digit. -/
def jsParseIntNotNaN (s : List Char) : Bool :=
  let t := s.dropWhile jsWhitespace
  let t2 := match t with
    | '+' :: r => r
    | '-' :: r => r
    | _ => t
  match t2 with
  | '0' :: 'x' :: r => match r with | c :: _ => hexDigit c | [] => false
  | '0' :: 'X' :: r => match r with | c :: _ => hexDigit c | [] => false
  | c :: _ => c.isDigit
  | [] => false

/-- The version-segment test of `getPublicIdFromUrl`:
`part.startsWith('v') && !isNaN(parseInt(part.substring(1)))`. -/
def versionLike (p : List Char) : Bool :=
  match p with
  | 'v' :: rest => jsParseIntNotNaN rest
  | _ => false

/-- JS `substring(0, lastIndexOf('.'))` when a dot occurs, the whole string
otherwise. -/
def dropAfterLastDot (s : List Char) : List Char :=
  if s.contains '.' then (((s.reverse).dropWhile (fun c => c ≠ '.')).drop 1).reverse
  else s

def uploadTok : List Char := "upload".toList

def cloudinaryNeedle : List Char := "cloudinary.com".toList

/-! ## Reference Resolver (`getPublicIdFromUrl`) -/

/-- Core of `getPublicIdFromUrl` on the segment list produced by
`url.split('/')`: locate the first segment equal to `"upload"` and the first
version-like segment, guard the index relationship, then join everything after
the version segment and strip the trailing extension. -/
def extractPublicId (parts : List (List Char)) : Option (List Char) :=
  match jsFindIndex (fun p => p = uploadTok) parts, jsFindIndex versionLike parts with
  | some ui, some ti =>
    if ti ≤ ui ∨ parts.length ≤ ti + 1 then none
    else some (dropAfterLastDot (List.intercalate ['/'] (parts.drop (ti + 1))))
  | _, _ => none

/-- `getPublicIdFromUrl` from `cloudinaryHelper.js`: `null` unless the URL
contains `cloudinary.com`, then the structural parse above. -/
def getPublicIdFromUrl (url : String) : Option String :=
  if containsSub cloudinaryNeedle url.toList then
    (extractPublicId (splitOnChar '/' url.toList)).map (fun l => String.mk l)
  else none

/-- Lift of `getPublicIdFromUrl` to a possibly-absent URL: JS
`getPublicIdFromUrl(undefined)` returns `null` via the `!url` check. -/
def getPublicIdFromUrlOpt : Option String → Option String
  | none => none
  | some u => getPublicIdFromUrl u

/-! ## Event traces and the Remote Asset Store Client -/

/-- Observable side effects of the media lifecycle: a remote upload to a
Cloudinary folder, a remote delete of a public id with a resource type, the
database save of an entity, the database delete of an entity, and a local
filesystem unlink (used only by `rejectUser`). -/
inductive Ev : Type
  | upload (folder : String)
  | cloudDelete (publicId : String) (resourceType : String)
  | dbSave
  | dbDelete
  | localUnlink (path : String)
deriving DecidableEq, Repr

/-- Successful Cloudinary upload payload as retained by the helper:
`{ secure_url, public_id }`. -/
structure CloudUploadResult : Type where
  secure_url : String
  public_id : String
deriving DecidableEq, Repr

/-- A multer memory-storage file: its MIME type, whether the data-URI
formatting of its buffer succeeds, and its byte size. -/
structure File : Type where
  mimetype : String
  bufferOk : Bool
  size : Nat
deriving DecidableEq, Repr

/-- `uploadToCloudinary(file, folder)` from `cloudinaryHelper.js`.  Resolves
`null` when no file is given; rejects without a remote call when the buffer
cannot be formatted into a data URI; otherwise performs the remote upload,
whose outcome is the `remote` oracle. -/
def uploadToCloudinary (file : Option File) (folder : String)
    (remote : Except String CloudUploadResult) :
    List Ev × Except String (Option CloudUploadResult) :=
  match file with
  | none => ([], .ok none)
  | some f =>
    if f.bufferOk = false then ([], .error "Failed to process file buffer.")
    else
      match remote with
      | .ok r => ([Ev.upload folder], .ok (some r))
      | .error e => ([Ev.upload folder], .error ("Cloudinary upload failed: " ++ e))

/-- `deleteFromCloudinary(publicId, resourceType)` from
`cloudinaryHelper.js`.  A falsy (`null` or empty) public id resolves `'ok'`
with no remote call; otherwise the remote `destroy` call is made and its
fulfilled result (for example `'ok'` or `'not found'`) is resolved as a
success, while a rejected remote call rejects. -/
def deleteFromCloudinary (publicId : Option String) (resourceType : String)
    (remote : Except String String) : List Ev × Except String String :=
  match publicId with
  | none => ([], .ok "ok")
  | some pid =>
    if pid = "" then ([], .ok "ok")
    else
      match remote with
      | .ok r => ([Ev.cloudDelete pid resourceType], .ok r)
      | .error e =>
        ([Ev.cloudDelete pid resourceType], .error ("Cloudinary deletion error: " ++ e))

/-- JS truthiness of a `string | null | undefined` value. -/
def truthyOptStr : Option String → Bool
  | none => false
  | some s => s ≠ ""

/-- JS `a || b` on `string | null | undefined` values. -/
def jsOrOptStr (a b : Option String) : Option String :=
  if truthyOptStr a then a else b

/-- JS `s.startsWith(pre)`. -/
def strStartsWith (s pre : String) : Bool := pre.toList.isPrefixOf s.toList

/-! ## Entity documents

Only the media-bearing fields are embedded; the text fields the handlers also
update (title, caption, bio, …) do not interact with the asset lifecycle. -/

/-- The locally served default avatar path, `DEFAULT_AVATAR_PATH` in
`userController.js` and the literal in `adminController.js`. -/
def DEFAULT_AVATAR_PATH : String := "/uploads/profile-pics/default_avatar.png"

/-- `User` document slice: `profilePic` stores only a URL (no public id), so
deletion must derive the handle from the URL. -/
structure UserDoc : Type where
  profilePic : String
deriving DecidableEq, Repr

/-- `Event` document slice: `image` URL and `imagePublicId`. -/
structure EventDoc : Type where
  image : Option String
  imagePublicId : Option String
deriving DecidableEq, Repr

/-- `Business` document slice: `image` URL and `imagePublicId`. -/
structure BusinessDoc : Type where
  image : Option String
  imagePublicId : Option String
deriving DecidableEq, Repr

/-- `Story` document slice: `mediaUrl` and `publicId`. -/
structure StoryDoc : Type where
  mediaUrl : String
  publicId : Option String
deriving DecidableEq, Repr

/-- `Post` document slice: `image` or `video` URL plus `mediaPublicId`. -/
structure PostDoc : Type where
  image : Option String
  video : Option String
  mediaPublicId : Option String
deriving DecidableEq, Repr

/-! ## Ownership/Lifecycle Coordinator: controller handlers

Each handler is modelled from the point where the entity has been loaded and
the requester authorized (the earlier not-found / forbidden exits return
before any media operation).  The remote upload and remote delete outcomes
are oracle arguments `rup` / `rdel`. -/

/-- `updateMyProfile` (`userController.js`): capture the old profile-pic URL
and derive its public id, upload the new picture when one is supplied, set
the new URL on the user, then delete the old picture (skipping the default
placeholder, swallowing deletion errors) and save. -/
def updateMyProfile (user : UserDoc) (file : Option File)
    (rup : Except String CloudUploadResult) (rdel : Except String String) :
    List Ev × Except String UserDoc :=
  let oldProfilePicUrl := user.profilePic
  let oldPublicId := getPublicIdFromUrl oldProfilePicUrl
  match file with
  | none => ([Ev.dbSave], .ok user)
  | some f =>
    match uploadToCloudinary (some f) "patwa_toli/profile-pics" rup with
    | (tr, .error e) => (tr, .error e)
    | (tr, .ok r?) =>
      match r? with
      | none => (tr, .error "Profile picture upload failed.")
      | some r =>
        if r.secure_url = "" ∨ r.public_id = "" then
          (tr, .error "Profile picture upload failed.")
        else
          let user' : UserDoc := { profilePic := r.secure_url }
          let delTr :=
            match oldPublicId with
            | some pid =>
              if pid ≠ "" ∧ oldProfilePicUrl ≠ DEFAULT_AVATAR_PATH then
                (deleteFromCloudinary (some pid) "auto" rdel).1
              else []
            | none => []
          (tr ++ delTr ++ [Ev.dbSave], .ok user')

/-- `updateEvent` (`eventController.js`): store the old `imagePublicId`, and
when a new image file is supplied upload it, set the new reference on the
event, delete the old image (errors swallowed) and then save. -/
def updateEvent (event : EventDoc) (file : Option File)
    (rup : Except String CloudUploadResult) (rdel : Except String String) :
    List Ev × Except String EventDoc :=
  let oldImagePublicId := event.imagePublicId
  match file with
  | none => ([Ev.dbSave], .ok event)
  | some f =>
    match uploadToCloudinary (some f) "patwa_toli/events" rup with
    | (tr, .error e) => (tr, .error e)
    | (tr, .ok r?) =>
      match r? with
      | none => (tr, .error "Image upload failed.")
      | some r =>
        if r.secure_url = "" then (tr, .error "Image upload failed.")
        else
          let event' : EventDoc :=
            { image := some r.secure_url, imagePublicId := some r.public_id }
          let delTr :=
            match oldImagePublicId with
            | some pid =>
              if pid ≠ "" then (deleteFromCloudinary (some pid) "auto" rdel).1 else []
            | none => []
          (tr ++ delTr ++ [Ev.dbSave], .ok event')

/-- `updateBusiness` (`businessController.js`): same replace sequencing as
`updateEvent`, with the businesses folder. -/
def updateBusiness (business : BusinessDoc) (file : Option File)
    (rup : Except String CloudUploadResult) (rdel : Except String String) :
    List Ev × Except String BusinessDoc :=
  let oldImagePublicId := business.imagePublicId
  match file with
  | none => ([Ev.dbSave], .ok business)
  | some f =>
    match uploadToCloudinary (some f) "patwa_toli/businesses" rup with
    | (tr, .error e) => (tr, .error e)
    | (tr, .ok r?) =>
      match r? with
      | none => (tr, .error "Business image update failed.")
      | some r =>
        if r.secure_url = "" then (tr, .error "Business image update failed.")
        else
          let business' : BusinessDoc :=
            { image := some r.secure_url, imagePublicId := some r.public_id }
          let delTr :=
            match oldImagePublicId with
            | some pid =>
              if pid ≠ "" then (deleteFromCloudinary (some pid) "auto" rdel).1 else []
            | none => []
          (tr ++ delTr ++ [Ev.dbSave], .ok business')

/-- `createStory` (`storyController.js`): media file required, caption bound
checked, media type derived from the MIME prefix, upload, then save only when
the upload resolved with both a URL and a public id. -/
def createStory (file : Option File) (caption : String)
    (rup : Except String CloudUploadResult) : List Ev × Except String String :=
  match file with
  | none => ([], .error "Story media file is required.")
  | some f =>
    if 200 < caption.length then ([], .error "Caption too long.")
    else if ¬ (strStartsWith f.mimetype "image" ∨ strStartsWith f.mimetype "video") then
      ([], .error "Invalid media type for story.")
    else
      match uploadToCloudinary (some f) "patwa_toli/stories" rup with
      | (tr, .error e) => (tr, .error e)
      | (tr, .ok r?) =>
        match r? with
        | none => (tr, .error "Failed to upload story media to Cloudinary.")
        | some r =>
          if r.secure_url = "" ∨ r.public_id = "" then
            (tr, .error "Failed to upload story media to Cloudinary.")
          else (tr ++ [Ev.dbSave], .ok "Story created.")

/-- `createBusiness` (`businessController.js`): required-field and format
validation first (the enum and regex outcomes are the boolean arguments),
then an optional image upload that must succeed before the save. -/
def createBusiness (name description category address email website : String)
    (categoryValid emailFormatOk websiteFormatOk : Bool)
    (file : Option File) (rup : Except String CloudUploadResult) :
    List Ev × Except String String :=
  if name = "" ∨ description = "" ∨ category = "" ∨ address = "" then
    ([], .error "Missing required fields (name, description, category, address).")
  else if categoryValid = false then ([], .error "Invalid category.")
  else if email ≠ "" ∧ emailFormatOk = false then
    ([], .error "Invalid email format provided.")
  else if website ≠ "" ∧ websiteFormatOk = false then
    ([], .error "Invalid website URL format provided.")
  else
    match file with
    | none => ([Ev.dbSave], .ok "Business listing created successfully.")
    | some f =>
      match uploadToCloudinary (some f) "patwa_toli/businesses" rup with
      | (tr, .error e) => (tr, .error e)
      | (tr, .ok r?) =>
        match r? with
        | none => (tr, .error "Business image upload to Cloudinary failed.")
        | some r =>
          if r.secure_url = "" ∨ r.public_id = "" then
            (tr, .error "Business image upload to Cloudinary failed.")
          else (tr ++ [Ev.dbSave], .ok "Business listing created successfully.")

/-- JS truthiness of `uploadResult?.secure_url && uploadResult?.public_id`. -/
def upResultTruthy : Option CloudUploadResult → Bool
  | none => false
  | some r => r.secure_url ≠ "" && r.public_id ≠ ""

/-- `createPost` (`postController.js`): text or media required; the image is
prioritized over the video; a provided media file must upload successfully
(URL and public id both present) before the save. -/
def createPost (content : String) (imageFile videoFile : Option File)
    (rup : Except String CloudUploadResult) : List Ev × Except String String :=
  if content = "" ∧ imageFile = none ∧ videoFile = none then
    ([], .error "Post must contain text content or media.")
  else
    let up :=
      if imageFile.isSome then uploadToCloudinary imageFile "patwa_toli/posts" rup
      else if videoFile.isSome then uploadToCloudinary videoFile "patwa_toli/posts" rup
      else ([], .ok none)
    match up with
    | (tr, .error e) => (tr, .error e)
    | (tr, .ok r?) =>
      if (imageFile.isSome || videoFile.isSome) && !upResultTruthy r? then
        (tr, .error "Cloudinary upload failed for post media.")
      else (tr ++ [Ev.dbSave], .ok "Post created successfully.")

/-- `deleteStory` (`storyController.js`): remote delete with the stored
`publicId` when it is truthy (errors swallowed), no URL fallback, then the
database delete. -/
def deleteStory (story : StoryDoc) (rdel : Except String String) :
    List Ev × Except String String :=
  let delTr :=
    match story.publicId with
    | some pid =>
      if pid ≠ "" then (deleteFromCloudinary (some pid) "auto" rdel).1 else []
    | none => []
  (delTr ++ [Ev.dbDelete], .ok "Story deleted.")

/-- `deleteEvent` (`eventController.js`): remote delete with the stored
`imagePublicId` when truthy (errors swallowed), then the database delete. -/
def deleteEvent (event : EventDoc) (rdel : Except String String) :
    List Ev × Except String String :=
  let delTr :=
    match event.imagePublicId with
    | some pid =>
      if pid ≠ "" then (deleteFromCloudinary (some pid) "auto" rdel).1 else []
    | none => []
  (delTr ++ [Ev.dbDelete], .ok "Event deleted.")

/-- `deleteBusiness` (`businessController.js`): remote delete with the stored
`imagePublicId` when truthy (errors swallowed; a missing id is only logged),
then the database delete. -/
def deleteBusiness (business : BusinessDoc) (rdel : Except String String) :
    List Ev × Except String String :=
  let delTr :=
    match business.imagePublicId with
    | some pid =>
      if pid ≠ "" then (deleteFromCloudinary (some pid) "auto" rdel).1 else []
    | none => []
  (delTr ++ [Ev.dbDelete], .ok "Business listing deleted successfully.")

/-- `deletePost` (`postController.js`): the deletion handle is the stored
`mediaPublicId` or, as fallback, the handle derived from the image/video URL;
when truthy the remote delete runs with resource type `video` for video
posts, `image` otherwise (errors swallowed), then the database delete. -/
def deletePost (post : PostDoc) (rdel : Except String String) :
    List Ev × Except String String :=
  let publicIdToDelete :=
    jsOrOptStr post.mediaPublicId (getPublicIdFromUrlOpt (jsOrOptStr post.image post.video))
  let delTr :=
    if truthyOptStr publicIdToDelete then
      let resourceType := if truthyOptStr post.video then "video" else "image"
      (deleteFromCloudinary publicIdToDelete resourceType rdel).1
    else []
  (delTr ++ [Ev.dbDelete], .ok "Post deleted successfully.")

/-- The user slice needed by `rejectUser`. -/
structure RejUser : Type where
  username : String
  verified : Bool
  profilePic : String
deriving DecidableEq, Repr

/-- `rejectUser` (`adminController.js`): refuse verified users, unlink a
non-default local profile picture from the filesystem (never a remote
delete), then delete the user record. -/
def rejectUser (found : Option RejUser) : List Ev × Except String String :=
  match found with
  | none => ([], .error "User not found.")
  | some u =>
    if u.verified then
      ([], .error "Cannot reject an already verified user. Use a delete function if needed.")
    else
      let tr1 :=
        if u.profilePic ≠ "" ∧ u.profilePic ≠ DEFAULT_AVATAR_PATH then
          [Ev.localUnlink u.profilePic]
        else []
      (tr1 ++ [Ev.dbDelete],
        .ok ("User registration for " ++ u.username ++ " rejected and record deleted."))

/-! ## Upload Gateway (multer middleware) -/

def FIVE_MB : Nat := 5 * 1024 * 1024

def TEN_MB : Nat := 10 * 1024 * 1024

def TWENTY_FIVE_MB : Nat := 25 * 1024 * 1024

def FIFTY_MB : Nat := 50 * 1024 * 1024

/-- `imageFileFilter` from `uploadMiddleware.js`. -/
def imageFileFilter (f : File) : Bool := strStartsWith f.mimetype "image/"

/-- `mediaFileFilter` from `uploadMiddleware.js`. -/
def mediaFileFilter (f : File) : Bool :=
  strStartsWith f.mimetype "image/" || strStartsWith f.mimetype "video/"

/-- Outcome of the multer middleware on one file. -/
inductive MulterOutcome : Type
  | accepted
  | limitFileSize
  | unexpectedFile
deriving DecidableEq, Repr

/-- Modelled from the spec: multer itself (library code, not under the
repository source) rejects a file failing the configured `fileFilter` with a
`LIMIT_UNEXPECTED_FILE` error and a file whose buffer exceeds
`limits.fileSize` with a `LIMIT_FILE_SIZE` error, before the controller runs;
the filter functions and byte limits are those configured in
`backend/middleware/uploadMiddleware.js`. -/
def runMulter (filter : File → Bool) (limit : Nat) (f : File) : MulterOutcome :=
  if filter f = false then .unexpectedFile
  else if limit < f.size then .limitFileSize
  else .accepted

/-- The `uploadProfilePic` multer instance: image filter, 5MB limit. -/
def uploadProfilePicGate (f : File) : MulterOutcome :=
  runMulter imageFileFilter FIVE_MB f

/-- The `uploadPostMedia` multer instance: image/video filter, 50MB limit. -/
def uploadPostMediaGate (f : File) : MulterOutcome :=
  runMulter mediaFileFilter FIFTY_MB f

/-- The `uploadStoryMedia` multer instance: image/video filter, 25MB limit. -/
def uploadStoryMediaGate (f : File) : MulterOutcome :=
  runMulter mediaFileFilter TWENTY_FIVE_MB f

/-- Gate for an optional file of the post route's `fields` configuration. -/
def gatePostFile : Option File → MulterOutcome
  | none => .accepted
  | some f => uploadPostMediaGate f

/-- The `POST /api/posts` route: multer's `uploadPostMedia` middleware runs on
both optional files before `createPost`; a middleware rejection goes to the
global error handler and the controller never runs. -/
def postCreateRoute (content : String) (imageFile videoFile : Option File)
    (rup : Except String CloudUploadResult) : List Ev × Except String String :=
  match gatePostFile imageFile with
  | .limitFileSize => ([], .error "File Upload Error: LIMIT_FILE_SIZE")
  | .unexpectedFile => ([], .error "File Upload Error: LIMIT_UNEXPECTED_FILE")
  | .accepted =>
    match gatePostFile videoFile with
    | .limitFileSize => ([], .error "File Upload Error: LIMIT_FILE_SIZE")
    | .unexpectedFile => ([], .error "File Upload Error: LIMIT_UNEXPECTED_FILE")
    | .accepted => createPost content imageFile videoFile rup

/-- The `PUT /api/users/me` route: multer's `uploadProfilePic` middleware runs
on the optional file before `updateMyProfile`. -/
def profileUpdateRoute (user : UserDoc) (file : Option File)
    (rup : Except String CloudUploadResult) (rdel : Except String String) :
    List Ev × Except String UserDoc :=
  match file with
  | none => updateMyProfile user none rup rdel
  | some f =>
    match uploadProfilePicGate f with
    | .limitFileSize => ([], .error "File Upload Error: LIMIT_FILE_SIZE")
    | .unexpectedFile => ([], .error "File Upload Error: LIMIT_UNEXPECTED_FILE")
    | .accepted => updateMyProfile user (some f) rup rdel

/-! ## Trace predicates -/

/-- `true` iff the event is a remote delete. -/
def isCloudDelete : Ev → Bool
  | .cloudDelete _ _ => true
  | _ => false

/-- The public ids of all remote deletes in a trace, in order. -/
def cloudDeletePids (tr : List Ev) : List String :=
  tr.filterMap fun e =>
    match e with
    | .cloudDelete pid _ => some pid
    | _ => none

/-- No remote delete occurs in the trace. -/
def noCloudDelete (tr : List Ev) : Bool := tr.all fun e => ¬ isCloudDelete e

/-- No database save occurs in the trace. -/
def noDbSave (tr : List Ev) : Bool := tr.all fun e => e ≠ Ev.dbSave

/-- No remote upload occurs in the trace. -/
def noUpload (tr : List Ev) : Bool :=
  tr.all fun e =>
    match e with
    | .upload _ => false
    | _ => true

/-- Every remote delete in the trace is preceded by a database save. -/
def deleteOnlyAfterSaveAux : Bool → List Ev → Bool
  | _, [] => true
  | seenSave, e :: rest =>
    match e with
    | .cloudDelete _ _ => seenSave && deleteOnlyAfterSaveAux seenSave rest
    | .dbSave => deleteOnlyAfterSaveAux true rest
    | _ => deleteOnlyAfterSaveAux seenSave rest

def deleteOnlyAfterSave (tr : List Ev) : Bool := deleteOnlyAfterSaveAux false tr

/-- Every remote delete in the trace is preceded by a remote upload. -/
def uploadPrecedesDeletesAux : Bool → List Ev → Bool
  | _, [] => true
  | seenUp, e :: rest =>
    match e with
    | .upload _ => uploadPrecedesDeletesAux true rest
    | .cloudDelete _ _ => seenUp && uploadPrecedesDeletesAux seenUp rest
    | _ => uploadPrecedesDeletesAux seenUp rest

def uploadPrecedesDeletes (tr : List Ev) : Bool := uploadPrecedesDeletesAux false tr

/-- Every remote delete in the trace occurs before any database save. -/
def deletesPrecedeSaveAux : Bool → List Ev → Bool
  | _, [] => true
  | seenSave, e :: rest =>
    match e with
    | .cloudDelete _ _ => !seenSave && deletesPrecedeSaveAux seenSave rest
    | .dbSave => deletesPrecedeSaveAux true rest
    | _ => deletesPrecedeSaveAux seenSave rest

def deletesPrecedeSave (tr : List Ev) : Bool := deletesPrecedeSaveAux false tr

/-- `createEvent` (`eventController.js`): field validation (collapsed into the
`fieldsOk` argument), an optional image upload that is checked only for a
`secure_url` — the public id is not checked — then the save. -/
def createEvent (fieldsOk : Bool) (file : Option File)
    (rup : Except String CloudUploadResult) : List Ev × Except String String :=
  if fieldsOk = false then ([], .error "Missing required fields.")
  else
    match file with
    | none => ([Ev.dbSave], .ok "Event created.")
    | some f =>
      match uploadToCloudinary (some f) "patwa_toli/events" rup with
      | (tr, .error e) => (tr, .error e)
      | (tr, .ok r?) =>
        match r? with
        | none => (tr, .error "Image upload failed.")
        | some r =>
          if r.secure_url = "" then (tr, .error "Image upload failed.")
          else (tr ++ [Ev.dbSave], .ok "Event created.")

/-- The upload-failure condition named by the spec: the upload promise
rejects, or the resolved result lacks a URL or a public id. -/
def uploadOutcomeFails : Except String CloudUploadResult → Bool
  | .error _ => true
  | .ok r => r.secure_url = "" || r.public_id = ""

/-- The operation's caller-visible outcome is an error. -/
def isErr {α : Type} : Except String α → Bool
  | .error _ => true
  | .ok _ => false

/-- Version segment in the spec's words: starts with `v` followed by a
digit. -/
def specVersionSeg (p : List Char) : Bool :=
  match p with
  | 'v' :: d :: _ => d.isDigit
  | _ => false

/-- Modelled from the spec's words, for comparison with the source-derived
`getPublicIdFromUrl`: a URL has the structural shape
`.../upload/v<version>/<folder>/<name>.<ext>` when some path segment is the
literal `upload`, a later segment is a version segment, and at least one
segment follows that version segment. -/
def specStructuralShape (url : String) : Bool :=
  let parts := splitOnChar '/' url.toList
  match jsFindIndex (fun p => p = uploadTok) parts with
  | none => false
  | some ui =>
    match jsFindIndex specVersionSeg (parts.drop (ui + 1)) with
    | none => false
    | some k => ui + 1 + k + 1 < parts.length

/-! ## Helper lemmas -/

theorem jsFindIndex_cons_true {α : Type} (p : α → Bool) (x : α) (xs : List α)
    (h : p x = true) : jsFindIndex p (x :: xs) = some 0 := by
  simp [jsFindIndex, h]

theorem jsFindIndex_append_of_forall_false {α : Type} (p : α → Bool)
    (l1 l2 : List α) (h : ∀ x ∈ l1, p x = false) :
    jsFindIndex p (l1 ++ l2) = (jsFindIndex p l2).map (· + l1.length) := by
  induction l1 with
  | nil =>
    cases hfi : jsFindIndex p l2 <;> simp [hfi]
  | cons x xs ih =>
    have hx : p x = false := h x (by simp)
    have ih' := ih (fun y hy => h y (by simp [hy]))
    cases hfi : jsFindIndex p l2
    · simp [jsFindIndex, hx, ih', hfi]
    · simp [jsFindIndex, hx, ih', hfi]
      omega

/-- Structural-parse characterization of `extractPublicId`: on a segment list
whose first `upload` segment is followed (possibly after further segments
without version-like shape) by the first version-like segment, with at least
one segment after it, the result is the joined tail minus the trailing
extension. -/
theorem extractPublicId_decomp (pre mid rest : List (List Char)) (vseg : List Char)
    (hpreU : ∀ p ∈ pre, p ≠ uploadTok)
    (hpreV : ∀ p ∈ pre, versionLike p = false)
    (hmidV : ∀ p ∈ mid, versionLike p = false)
    (hv : versionLike vseg = true)
    (hrest : rest ≠ []) :
    extractPublicId (pre ++ uploadTok :: (mid ++ vseg :: rest)) =
      some (dropAfterLastDot (List.intercalate ['/'] rest)) := by
  have hui : jsFindIndex (fun p => decide (p = uploadTok))
      (pre ++ uploadTok :: (mid ++ vseg :: rest)) = some pre.length := by
    rw [jsFindIndex_append_of_forall_false _ pre _ (fun x hx => by simp [hpreU x hx]),
      jsFindIndex_cons_true _ _ _ (by simp)]
    simp
  have hassoc : pre ++ uploadTok :: (mid ++ vseg :: rest) =
      (pre ++ uploadTok :: mid) ++ vseg :: rest := by simp
  have hti : jsFindIndex versionLike (pre ++ uploadTok :: (mid ++ vseg :: rest)) =
      some (pre.length + 1 + mid.length) := by
    rw [hassoc, jsFindIndex_append_of_forall_false _ _ _ ?_,
      jsFindIndex_cons_true _ _ _ hv]
    · simp
      omega
    · intro x hx
      rcases List.mem_append.mp hx with hx | hx
      · exact hpreV x hx
      · rcases List.mem_cons.mp hx with rfl | hx
        · rfl
        · exact hmidV x hx
  have hlen1 : 0 < rest.length := List.length_pos.mpr hrest
  have hdrop : (pre ++ uploadTok :: (mid ++ vseg :: rest)).drop
      (pre.length + 1 + mid.length + 1) = rest := by
    have e2 : pre ++ uploadTok :: (mid ++ vseg :: rest) =
        (pre ++ uploadTok :: (mid ++ [vseg])) ++ rest := by simp
    rw [e2, List.drop_left' (by simp; omega)]
  simp only [extractPublicId, hui, hti]
  rw [if_neg ?_, hdrop]
  · simp
    omega

/-! ## Claim theorems -/

/-- C10: `uploadToCloudinary` invoked with a missing file resolves to `null`
without any buffer formatting or remote upload call (the trace is empty), and
the caller receives that `null` rather than an error. -/
theorem claim_C10_upload_no_file :
    ∀ (folder : String) (remote : Except String CloudUploadResult),
      uploadToCloudinary none folder remote = ([], .ok none) :=
  fun _ _ => rfl

/-- C7: the remote delete is idempotent in outcome: a `null` or empty handle
resolves `'ok'` with no remote call, and a handle the remote store reports as
`'not found'` also resolves as a success rather than an error. -/
theorem claim_C7_delete_idempotent :
    (∀ (rt : String) (remote : Except String String),
        deleteFromCloudinary none rt remote = ([], .ok "ok")) ∧
    (∀ (rt : String) (remote : Except String String),
        deleteFromCloudinary (some "") rt remote = ([], .ok "ok")) ∧
    (∀ (pid rt : String), pid ≠ "" →
        deleteFromCloudinary (some pid) rt (.ok "not found") =
          ([Ev.cloudDelete pid rt], .ok "not found")) := by
  refine ⟨fun rt r => rfl, fun rt r => ?_, fun pid rt h => ?_⟩
  · simp [deleteFromCloudinary]
  · simp [deleteFromCloudinary, h]

/-- Witness for C7 at a concrete already-deleted handle. -/
theorem claim_C7_witness :
    deleteFromCloudinary (some "patwa_toli/posts/gone") "image" (.ok "not found") =
      ([Ev.cloudDelete "patwa_toli/posts/gone" "image"], .ok "not found") :=
  claim_C7_delete_idempotent.2.2 "patwa_toli/posts/gone" "image" (by decide)

/-- C9: `getPublicIdFromUrl` returns `null` for every URL that does not
contain the substring `cloudinary.com`, whatever its structure. -/
theorem claim_C9_non_cloudinary_null (url : String)
    (h : containsSub cloudinaryNeedle url.toList = false) :
    getPublicIdFromUrl url = none := by
  simp [getPublicIdFromUrl, show containsSub cloudinaryNeedle url.data = false from h]

/-- Witness for C9 at a URL that matches the structural upload pattern but is
not Cloudinary-hosted. -/
theorem claim_C9_witness :
    containsSub cloudinaryNeedle ("https://example.org/upload/v12/pics/cat.png").toList
        = false ∧
    getPublicIdFromUrl "https://example.org/upload/v12/pics/cat.png" = none :=
  ⟨by decide, claim_C9_non_cloudinary_null _ (by decide)⟩

/-- C5: for every delete-entity-with-media operation (story, event, business,
post), the database delete occurs and the operation reports its success
message whatever the remote deletion outcome `rdel` is — a remote deletion
failure never prevents the record delete and never appears in the
caller-visible result. -/
theorem claim_C5_delete_best_effort :
    (∀ (story : StoryDoc) (rdel : Except String String),
        Ev.dbDelete ∈ (deleteStory story rdel).1 ∧
        (deleteStory story rdel).2 = .ok "Story deleted.") ∧
    (∀ (event : EventDoc) (rdel : Except String String),
        Ev.dbDelete ∈ (deleteEvent event rdel).1 ∧
        (deleteEvent event rdel).2 = .ok "Event deleted.") ∧
    (∀ (business : BusinessDoc) (rdel : Except String String),
        Ev.dbDelete ∈ (deleteBusiness business rdel).1 ∧
        (deleteBusiness business rdel).2 = .ok "Business listing deleted successfully.") ∧
    (∀ (post : PostDoc) (rdel : Except String String),
        Ev.dbDelete ∈ (deletePost post rdel).1 ∧
        (deletePost post rdel).2 = .ok "Post deleted successfully.") := by
  refine ⟨fun s r => ⟨?_, rfl⟩, fun e r => ⟨?_, rfl⟩, fun b r => ⟨?_, rfl⟩,
    fun p r => ⟨?_, rfl⟩⟩ <;>
    simp [deleteStory, deleteEvent, deleteBusiness, deletePost]

/-- C6: an Asset Reference pointing at the local default placeholder path is
never passed to the remote delete: a profile update on a user whose picture
is the default performs no remote delete, and `rejectUser` never performs a
remote delete at all (it only unlinks a local file). -/
theorem claim_C6_default_placeholder_never_remote_deleted :
    (∀ (user : UserDoc) (file : Option File) (rup : Except String CloudUploadResult)
        (rdel : Except String String), user.profilePic = DEFAULT_AVATAR_PATH →
        noCloudDelete (updateMyProfile user file rup rdel).1 = true) ∧
    (∀ found : Option RejUser, noCloudDelete (rejectUser found).1 = true) := by
  constructor
  · intro user file rup rdel hpic
    cases file with
    | none => simp [updateMyProfile, noCloudDelete, isCloudDelete]
    | some f =>
      by_cases hb : f.bufferOk = false
      · simp [updateMyProfile, uploadToCloudinary, hb, noCloudDelete, isCloudDelete]
      · cases rup with
        | error e =>
          simp [updateMyProfile, uploadToCloudinary, hb, noCloudDelete, isCloudDelete]
        | ok r =>
          by_cases hu : r.secure_url = "" ∨ r.public_id = ""
          · simp [updateMyProfile, uploadToCloudinary, hb, hu, noCloudDelete, isCloudDelete]
          · simp only [updateMyProfile, uploadToCloudinary, hb, hu, hpic, noCloudDelete,
              isCloudDelete]
            cases getPublicIdFromUrl DEFAULT_AVATAR_PATH <;>
              simp [noCloudDelete, isCloudDelete, hu]
  · intro found
    cases found with
    | none => simp [rejectUser, noCloudDelete]
    | some u =>
      by_cases hv : u.verified
      · simp [rejectUser, hv, noCloudDelete]
      · by_cases hp : u.profilePic ≠ "" ∧ u.profilePic ≠ DEFAULT_AVATAR_PATH
        · simp [rejectUser, hv, hp, noCloudDelete, isCloudDelete]
        · simp [rejectUser, hv, hp, noCloudDelete, isCloudDelete]

/-- Witness for C6: a profile update over the default avatar with a fresh
upload performs no remote delete. -/
theorem claim_C6_witness :
    noCloudDelete (updateMyProfile ⟨DEFAULT_AVATAR_PATH⟩ (some ⟨"image/png", true, 100⟩)
      (.ok ⟨"https://res.cloudinary.com/d/image/upload/v1/patwa_toli/profile-pics/n.png",
        "patwa_toli/profile-pics/n"⟩) (.ok "ok")).1 = true :=
  claim_C6_default_placeholder_never_remote_deleted.1 _ _ _ _ rfl

/-- C8 counterexample: an oversized pending upload whose MIME type fails the
class's filter (a 60MB `text/plain` file as post media) is rejected with the
unexpected-file error, not the payload-too-large error the claim names for
every oversized upload. -/
theorem claim_C8_counterexample :
    FIFTY_MB < 62914560 ∧
    uploadPostMediaGate ⟨"text/plain", true, 62914560⟩ = .unexpectedFile ∧
    uploadPostMediaGate ⟨"text/plain", true, 62914560⟩ ≠ .limitFileSize := by
  decide

/-- C8 (amended): a pending upload whose buffer exceeds its asset class's
byte limit (50MB for post media, 5MB for profile pictures) is always rejected
by the gate and the controller, hence the remote upload, is never reached;
the rejection is the payload-too-large error exactly when the file's MIME
type passes the class's filter, and the unexpected-file error otherwise (see
the counterexample). -/
theorem claim_C8_size_limit :
    (∀ f : File, FIFTY_MB < f.size →
        uploadPostMediaGate f ≠ .accepted ∧
        (mediaFileFilter f = true → uploadPostMediaGate f = .limitFileSize) ∧
        ∀ (content : String) (videoFile : Option File) (rup : Except String CloudUploadResult),
          noUpload (postCreateRoute content (some f) videoFile rup).1 = true) ∧
    (∀ f : File, FIVE_MB < f.size →
        uploadProfilePicGate f ≠ .accepted ∧
        (imageFileFilter f = true → uploadProfilePicGate f = .limitFileSize) ∧
        ∀ (user : UserDoc) (rup : Except String CloudUploadResult)
          (rdel : Except String String),
          noUpload (profileUpdateRoute user (some f) rup rdel).1 = true) := by
  constructor
  · intro f hsize
    by_cases hf : mediaFileFilter f = false
    · refine ⟨?_, ?_, ?_⟩
      · simp [uploadPostMediaGate, runMulter, hf]
      · simp [hf]
      · intro content videoFile rup
        simp [postCreateRoute, gatePostFile, uploadPostMediaGate, runMulter, hf, noUpload]
    · refine ⟨?_, ?_, ?_⟩
      · simp [uploadPostMediaGate, runMulter, hf, hsize]
      · intro _
        simp [uploadPostMediaGate, runMulter, hf, hsize]
      · intro content videoFile rup
        simp [postCreateRoute, gatePostFile, uploadPostMediaGate, runMulter, hf, hsize,
          noUpload]
  · intro f hsize
    by_cases hf : imageFileFilter f = false
    · refine ⟨?_, ?_, ?_⟩
      · simp [uploadProfilePicGate, runMulter, hf]
      · simp [hf]
      · intro user rup rdel
        simp [profileUpdateRoute, uploadProfilePicGate, runMulter, hf, noUpload]
    · refine ⟨?_, ?_, ?_⟩
      · simp [uploadProfilePicGate, runMulter, hf, hsize]
      · intro _
        simp [uploadProfilePicGate, runMulter, hf, hsize]
      · intro user rup rdel
        simp [profileUpdateRoute, uploadProfilePicGate, runMulter, hf, hsize, noUpload]

/-- Witness for C8: a 60MB video as post media is rejected with the file-size
limit error and the post route performs no remote upload. -/
theorem claim_C8_witness :
    uploadPostMediaGate ⟨"video/mp4", true, 62914560⟩ = .limitFileSize ∧
    noUpload (postCreateRoute "clip" (some ⟨"video/mp4", true, 62914560⟩) none
      (.ok ⟨"u", "p"⟩)).1 = true := by
  have h := claim_C8_size_limit.1 ⟨"video/mp4", true, 62914560⟩ (by decide)
  exact ⟨h.2.1 (by decide), h.2.2 "clip" none (.ok ⟨"u", "p"⟩)⟩

/-- The trace of a remote delete call does not depend on the remote outcome:
it is the single delete event when the handle is truthy and empty otherwise. -/
theorem deleteFromCloudinary_fst (p : Option String) (rt : String)
    (rd : Except String String) :
    (deleteFromCloudinary p rt rd).1 =
      if truthyOptStr p = true then [Ev.cloudDelete (p.getD "") rt] else [] := by
  cases p with
  | none => simp [deleteFromCloudinary, truthyOptStr]
  | some pid =>
    by_cases h : pid = ""
    · simp [deleteFromCloudinary, truthyOptStr, h]
    · cases rd <;> simp [deleteFromCloudinary, truthyOptStr, h]

/-- C4 counterexample: `createEvent` checks only the upload's URL, so an
upload result that lacks the deletion handle (an upload failure in the
claim's sense) is still followed by the database save and a success reply. -/
theorem claim_C4_counterexample :
    uploadOutcomeFails
        (Except.ok
          (⟨"https://res.cloudinary.com/d/image/upload/v1/patwa_toli/events/e.jpg", ""⟩ :
            CloudUploadResult)) = true ∧
    createEvent true (some ⟨"image/jpeg", true, 100⟩)
        (.ok ⟨"https://res.cloudinary.com/d/image/upload/v1/patwa_toli/events/e.jpg", ""⟩) =
      ([Ev.upload "patwa_toli/events", Ev.dbSave], .ok "Event created.") := by
  exact ⟨rfl, rfl⟩

/-- C4 (amended): for the story, business and post create operations, when
the upload fails (rejects, or resolves without a URL or a public id) the
entity is never saved and the operation errors; event creation guarantees
this only when the upload rejects or resolves without a URL — a resolved
result lacking only the public id is persisted there (see the
counterexample). -/
theorem claim_C4_amended_create_no_persist :
    (∀ (file : Option File) (caption : String) (rup : Except String CloudUploadResult),
        uploadOutcomeFails rup = true →
        noDbSave (createStory file caption rup).1 = true ∧
        isErr (createStory file caption rup).2 = true) ∧
    (∀ (name description category address email website : String)
        (cv eo wo : Bool) (f : File) (rup : Except String CloudUploadResult),
        uploadOutcomeFails rup = true →
        noDbSave (createBusiness name description category address email website
            cv eo wo (some f) rup).1 = true ∧
        isErr (createBusiness name description category address email website
            cv eo wo (some f) rup).2 = true) ∧
    (∀ (content : String) (imageFile videoFile : Option File)
        (rup : Except String CloudUploadResult),
        (imageFile.isSome || videoFile.isSome) = true →
        uploadOutcomeFails rup = true →
        noDbSave (createPost content imageFile videoFile rup).1 = true ∧
        isErr (createPost content imageFile videoFile rup).2 = true) ∧
    (∀ (fieldsOk : Bool) (f : File) (rup : Except String CloudUploadResult),
        (∀ r, rup = Except.ok r → r.secure_url = "") →
        noDbSave (createEvent fieldsOk (some f) rup).1 = true ∧
        isErr (createEvent fieldsOk (some f) rup).2 = true) := by
  refine ⟨?_, ?_, ?_, ?_⟩
  · intro file caption rup h
    cases file with
    | none => simp [createStory, noDbSave, isErr]
    | some f =>
      by_cases hb : f.bufferOk = false <;>
        rcases rup with e | r <;>
        by_cases hc : 200 < caption.length <;>
        by_cases hm : strStartsWith f.mimetype "image" ∨ strStartsWith f.mimetype "video" <;>
        simp_all [createStory, uploadToCloudinary, uploadOutcomeFails, noDbSave, isErr] <;>
        (try (split <;> simp_all))
  · intro name description category address email website cv eo wo f rup h
    by_cases hb : f.bufferOk = false <;> rcases rup with e | r <;>
      simp_all [createBusiness, uploadToCloudinary, uploadOutcomeFails, noDbSave, isErr] <;>
      (repeat (split <;> simp_all [noDbSave, isErr]))
  · intro content imageFile videoFile rup hmedia h
    rcases imageFile with _ | fi
    · rcases videoFile with _ | fv
      · simp at hmedia
      · by_cases hb : fv.bufferOk = false <;> rcases rup with e | r <;>
          simp_all [createPost, uploadToCloudinary, upResultTruthy, uploadOutcomeFails,
            noDbSave, isErr]
    · by_cases hb : fi.bufferOk = false <;> rcases rup with e | r <;>
        simp_all [createPost, uploadToCloudinary, upResultTruthy, uploadOutcomeFails,
          noDbSave, isErr]
  · intro fieldsOk f rup h
    by_cases hok : fieldsOk = false
    · simp [createEvent, hok, noDbSave, isErr]
    · by_cases hb : f.bufferOk = false
      · simp [createEvent, hok, uploadToCloudinary, hb, noDbSave, isErr]
      · rcases rup with e | r
        · simp [createEvent, hok, uploadToCloudinary, hb, noDbSave, isErr]
        · have hr := h r rfl
          simp [createEvent, hok, uploadToCloudinary, hb, hr, noDbSave, isErr]

/-- Witness for C4 (amended): a rejected story upload produces no save and an
error. -/
theorem claim_C4_witness :
    noDbSave (createStory (some ⟨"image/png", true, 100⟩) "hi" (.error "network")).1 = true ∧
    isErr (createStory (some ⟨"image/png", true, 100⟩) "hi" (.error "network")).2 = true :=
  claim_C4_amended_create_no_persist.1 (some ⟨"image/png", true, 100⟩) "hi"
    (.error "network") rfl

/-- C1 counterexample: in a successful event image replacement, the old
asset's remote delete occurs strictly before the database save of the entity
referencing the new asset, so the delete is not "only after the persist
succeeds". -/
theorem claim_C1_counterexample :
    (updateEvent
        ⟨some "https://res.cloudinary.com/d/image/upload/v1/patwa_toli/events/old.jpg",
          some "patwa_toli/events/old"⟩
        (some ⟨"image/jpeg", true, 100⟩)
        (.ok ⟨"https://res.cloudinary.com/d/image/upload/v2/patwa_toli/events/new.jpg",
          "patwa_toli/events/new"⟩)
        (.ok "ok")).1 =
      [Ev.upload "patwa_toli/events", Ev.cloudDelete "patwa_toli/events/old" "auto",
        Ev.dbSave] ∧
    deleteOnlyAfterSave
        [Ev.upload "patwa_toli/events", Ev.cloudDelete "patwa_toli/events/old" "auto",
          Ev.dbSave] = false := by
  exact ⟨rfl, rfl⟩

/-- C1 (amended): in every execution of the profile, event and business
update handlers, any remote delete of the old asset happens only after the
new media's upload event, only when that upload resolved successfully with a
URL, and strictly before — not after — the database save of the entity. -/
theorem claim_C1_amended_replace_sequencing :
    (∀ (user : UserDoc) (file : Option File) (rup : Except String CloudUploadResult)
        (rdel : Except String String),
        uploadPrecedesDeletes (updateMyProfile user file rup rdel).1 = true ∧
        deletesPrecedeSave (updateMyProfile user file rup rdel).1 = true ∧
        (noCloudDelete (updateMyProfile user file rup rdel).1 = false →
          ∃ r, rup = .ok r ∧ r.secure_url ≠ "")) ∧
    (∀ (event : EventDoc) (file : Option File) (rup : Except String CloudUploadResult)
        (rdel : Except String String),
        uploadPrecedesDeletes (updateEvent event file rup rdel).1 = true ∧
        deletesPrecedeSave (updateEvent event file rup rdel).1 = true ∧
        (noCloudDelete (updateEvent event file rup rdel).1 = false →
          ∃ r, rup = .ok r ∧ r.secure_url ≠ "")) ∧
    (∀ (business : BusinessDoc) (file : Option File) (rup : Except String CloudUploadResult)
        (rdel : Except String String),
        uploadPrecedesDeletes (updateBusiness business file rup rdel).1 = true ∧
        deletesPrecedeSave (updateBusiness business file rup rdel).1 = true ∧
        (noCloudDelete (updateBusiness business file rup rdel).1 = false →
          ∃ r, rup = .ok r ∧ r.secure_url ≠ "")) := by
  refine ⟨?_, ?_, ?_⟩
  · intro user file rup rdel
    cases file with
    | none =>
      simp [updateMyProfile, uploadPrecedesDeletes, uploadPrecedesDeletesAux,
        deletesPrecedeSave, deletesPrecedeSaveAux, noCloudDelete, isCloudDelete]
    | some f =>
      by_cases hb : f.bufferOk = false
      · simp [updateMyProfile, uploadToCloudinary, hb, uploadPrecedesDeletes,
          uploadPrecedesDeletesAux, deletesPrecedeSave, deletesPrecedeSaveAux,
          noCloudDelete, isCloudDelete]
      · rcases rup with e | r
        · simp [updateMyProfile, uploadToCloudinary, hb, uploadPrecedesDeletes,
            uploadPrecedesDeletesAux, deletesPrecedeSave, deletesPrecedeSaveAux,
            noCloudDelete, isCloudDelete]
        · by_cases hu : r.secure_url = "" ∨ r.public_id = ""
          · simp [updateMyProfile, uploadToCloudinary, hb, hu, uploadPrecedesDeletes,
              uploadPrecedesDeletesAux, deletesPrecedeSave, deletesPrecedeSaveAux,
              noCloudDelete, isCloudDelete]
          · cases hold : getPublicIdFromUrl user.profilePic with
            | none =>
              simp [updateMyProfile, uploadToCloudinary, hb, hu, hold,
                uploadPrecedesDeletes, uploadPrecedesDeletesAux, deletesPrecedeSave,
                deletesPrecedeSaveAux, noCloudDelete, isCloudDelete]
            | some pid =>
              by_cases hp : pid ≠ "" ∧ user.profilePic ≠ DEFAULT_AVATAR_PATH
              · refine ⟨?_, ?_, fun _ => ⟨r, rfl, fun hc => hu (Or.inl hc)⟩⟩ <;>
                  simp [updateMyProfile, uploadToCloudinary, hb, hu, hold, hp,
                    deleteFromCloudinary_fst, truthyOptStr, hp.1, uploadPrecedesDeletes,
                    uploadPrecedesDeletesAux, deletesPrecedeSave, deletesPrecedeSaveAux]
              · simp [updateMyProfile, uploadToCloudinary, hb, hu, hold, hp,
                  uploadPrecedesDeletes, uploadPrecedesDeletesAux, deletesPrecedeSave,
                  deletesPrecedeSaveAux, noCloudDelete, isCloudDelete]
  · intro event file rup rdel
    cases file with
    | none =>
      simp [updateEvent, uploadPrecedesDeletes, uploadPrecedesDeletesAux,
        deletesPrecedeSave, deletesPrecedeSaveAux, noCloudDelete, isCloudDelete]
    | some f =>
      by_cases hb : f.bufferOk = false
      · simp [updateEvent, uploadToCloudinary, hb, uploadPrecedesDeletes,
          uploadPrecedesDeletesAux, deletesPrecedeSave, deletesPrecedeSaveAux,
          noCloudDelete, isCloudDelete]
      · rcases rup with e | r
        · simp [updateEvent, uploadToCloudinary, hb, uploadPrecedesDeletes,
            uploadPrecedesDeletesAux, deletesPrecedeSave, deletesPrecedeSaveAux,
            noCloudDelete, isCloudDelete]
        · by_cases hu : r.secure_url = ""
          · simp [updateEvent, uploadToCloudinary, hb, hu, uploadPrecedesDeletes,
              uploadPrecedesDeletesAux, deletesPrecedeSave, deletesPrecedeSaveAux,
              noCloudDelete, isCloudDelete]
          · cases hold : event.imagePublicId with
            | none =>
              simp [updateEvent, uploadToCloudinary, hb, hu, hold,
                uploadPrecedesDeletes, uploadPrecedesDeletesAux, deletesPrecedeSave,
                deletesPrecedeSaveAux, noCloudDelete, isCloudDelete]
            | some pid =>
              by_cases hp : pid = ""
              · simp [updateEvent, uploadToCloudinary, hb, hu, hold, hp,
                  uploadPrecedesDeletes, uploadPrecedesDeletesAux, deletesPrecedeSave,
                  deletesPrecedeSaveAux, noCloudDelete, isCloudDelete]
              · refine ⟨?_, ?_, fun _ => ⟨r, rfl, hu⟩⟩ <;>
                  simp [updateEvent, uploadToCloudinary, hb, hu, hold, hp,
                    deleteFromCloudinary_fst, truthyOptStr, uploadPrecedesDeletes,
                    uploadPrecedesDeletesAux, deletesPrecedeSave, deletesPrecedeSaveAux]
  · intro business file rup rdel
    cases file with
    | none =>
      simp [updateBusiness, uploadPrecedesDeletes, uploadPrecedesDeletesAux,
        deletesPrecedeSave, deletesPrecedeSaveAux, noCloudDelete, isCloudDelete]
    | some f =>
      by_cases hb : f.bufferOk = false
      · simp [updateBusiness, uploadToCloudinary, hb, uploadPrecedesDeletes,
          uploadPrecedesDeletesAux, deletesPrecedeSave, deletesPrecedeSaveAux,
          noCloudDelete, isCloudDelete]
      · rcases rup with e | r
        · simp [updateBusiness, uploadToCloudinary, hb, uploadPrecedesDeletes,
            uploadPrecedesDeletesAux, deletesPrecedeSave, deletesPrecedeSaveAux,
            noCloudDelete, isCloudDelete]
        · by_cases hu : r.secure_url = ""
          · simp [updateBusiness, uploadToCloudinary, hb, hu, uploadPrecedesDeletes,
              uploadPrecedesDeletesAux, deletesPrecedeSave, deletesPrecedeSaveAux,
              noCloudDelete, isCloudDelete]
          · cases hold : business.imagePublicId with
            | none =>
              simp [updateBusiness, uploadToCloudinary, hb, hu, hold,
                uploadPrecedesDeletes, uploadPrecedesDeletesAux, deletesPrecedeSave,
                deletesPrecedeSaveAux, noCloudDelete, isCloudDelete]
            | some pid =>
              by_cases hp : pid = ""
              · simp [updateBusiness, uploadToCloudinary, hb, hu, hold, hp,
                  uploadPrecedesDeletes, uploadPrecedesDeletesAux, deletesPrecedeSave,
                  deletesPrecedeSaveAux, noCloudDelete, isCloudDelete]
              · refine ⟨?_, ?_, fun _ => ⟨r, rfl, hu⟩⟩ <;>
                  simp [updateBusiness, uploadToCloudinary, hb, hu, hold, hp,
                    deleteFromCloudinary_fst, truthyOptStr, uploadPrecedesDeletes,
                    uploadPrecedesDeletesAux, deletesPrecedeSave, deletesPrecedeSaveAux]

/-- Witness for C1 (amended) at a concrete successful business image
replacement carrying an old handle. -/
theorem claim_C1_witness :
    uploadPrecedesDeletes
        (updateBusiness ⟨some "u", some "patwa_toli/businesses/old"⟩
          (some ⟨"image/jpeg", true, 100⟩)
          (.ok ⟨"https://n", "patwa_toli/businesses/new"⟩) (.ok "ok")).1 = true ∧
    deletesPrecedeSave
        (updateBusiness ⟨some "u", some "patwa_toli/businesses/old"⟩
          (some ⟨"image/jpeg", true, 100⟩)
          (.ok ⟨"https://n", "patwa_toli/businesses/new"⟩) (.ok "ok")).1 = true :=
  ⟨(claim_C1_amended_replace_sequencing.2.2 ⟨some "u", some "patwa_toli/businesses/old"⟩
      (some ⟨"image/jpeg", true, 100⟩) (.ok ⟨"https://n", "patwa_toli/businesses/new"⟩)
      (.ok "ok")).1,
    (claim_C1_amended_replace_sequencing.2.2 ⟨some "u", some "patwa_toli/businesses/old"⟩
      (some ⟨"image/jpeg", true, 100⟩) (.ok ⟨"https://n", "patwa_toli/businesses/new"⟩)
      (.ok "ok")).2.1⟩

/-- C2 counterexample: a story whose stored handle is absent but whose media
URL yields a handle under the Reference Resolver is deleted with no remote
delete attempt at all — the fallback derivation is not applied to stories. -/
theorem claim_C2_counterexample :
    (deleteStory
        ⟨"https://res.cloudinary.com/demo/image/upload/v99/patwa_toli/stories/s1.jpg",
          none⟩ (.ok "ok")).1 = [Ev.dbDelete] ∧
    getPublicIdFromUrl
        "https://res.cloudinary.com/demo/image/upload/v99/patwa_toli/stories/s1.jpg" =
      some "patwa_toli/stories/s1" := by
  exact ⟨rfl, by decide⟩

/-- C2 (amended): every delete handler uses the stored handle directly when
it is present; the fallback derivation from the stored URL is applied only by
post deletion, while story, event and business deletion skip the remote
delete entirely when the stored handle is absent. -/
theorem claim_C2_amended_handle_resolution :
    (∀ (post : PostDoc) (rdel : Except String String) (pid : String),
        post.mediaPublicId = some pid → pid ≠ "" →
        cloudDeletePids (deletePost post rdel).1 = [pid]) ∧
    (∀ (post : PostDoc) (rdel : Except String String) (h : String),
        truthyOptStr post.mediaPublicId = false →
        getPublicIdFromUrlOpt (jsOrOptStr post.image post.video) = some h → h ≠ "" →
        cloudDeletePids (deletePost post rdel).1 = [h]) ∧
    (∀ (story : StoryDoc) (rdel : Except String String) (pid : String),
        story.publicId = some pid → pid ≠ "" →
        cloudDeletePids (deleteStory story rdel).1 = [pid]) ∧
    (∀ (story : StoryDoc) (rdel : Except String String),
        truthyOptStr story.publicId = false →
        noCloudDelete (deleteStory story rdel).1 = true) ∧
    (∀ (event : EventDoc) (rdel : Except String String) (pid : String),
        event.imagePublicId = some pid → pid ≠ "" →
        cloudDeletePids (deleteEvent event rdel).1 = [pid]) ∧
    (∀ (event : EventDoc) (rdel : Except String String),
        truthyOptStr event.imagePublicId = false →
        noCloudDelete (deleteEvent event rdel).1 = true) ∧
    (∀ (business : BusinessDoc) (rdel : Except String String) (pid : String),
        business.imagePublicId = some pid → pid ≠ "" →
        cloudDeletePids (deleteBusiness business rdel).1 = [pid]) ∧
    (∀ (business : BusinessDoc) (rdel : Except String String),
        truthyOptStr business.imagePublicId = false →
        noCloudDelete (deleteBusiness business rdel).1 = true) := by
  refine ⟨?_, ?_, ?_, ?_, ?_, ?_, ?_, ?_⟩
  · intro post rdel pid hmp hpid
    simp [deletePost, hmp, jsOrOptStr, truthyOptStr, hpid, deleteFromCloudinary_fst,
      cloudDeletePids]
  · intro post rdel h hmp hder hne
    have h1 : jsOrOptStr post.mediaPublicId (some h) = some h := by
      simp [jsOrOptStr, hmp]
    simp [deletePost, h1, hder, truthyOptStr, hne, deleteFromCloudinary_fst,
      cloudDeletePids]
  · intro story rdel pid hsp hpid
    simp [deleteStory, hsp, hpid, deleteFromCloudinary_fst, truthyOptStr, cloudDeletePids]
  · intro story rdel hsp
    cases hp : story.publicId with
    | none => simp [deleteStory, hp, noCloudDelete, isCloudDelete]
    | some pid =>
      rw [hp] at hsp
      simp [truthyOptStr] at hsp
      simp [deleteStory, hp, hsp, noCloudDelete, isCloudDelete]
  · intro event rdel pid hep hpid
    simp [deleteEvent, hep, hpid, deleteFromCloudinary_fst, truthyOptStr, cloudDeletePids]
  · intro event rdel hep
    cases hp : event.imagePublicId with
    | none => simp [deleteEvent, hp, noCloudDelete, isCloudDelete]
    | some pid =>
      rw [hp] at hep
      simp [truthyOptStr] at hep
      simp [deleteEvent, hp, hep, noCloudDelete, isCloudDelete]
  · intro business rdel pid hbp hpid
    simp [deleteBusiness, hbp, hpid, deleteFromCloudinary_fst, truthyOptStr,
      cloudDeletePids]
  · intro business rdel hbp
    cases hp : business.imagePublicId with
    | none => simp [deleteBusiness, hp, noCloudDelete, isCloudDelete]
    | some pid =>
      rw [hp] at hbp
      simp [truthyOptStr] at hbp
      simp [deleteBusiness, hp, hbp, noCloudDelete, isCloudDelete]

/-- Witness for C2 (amended): a post without a stored handle falls back to
the handle derived from its video URL. -/
theorem claim_C2_witness :
    cloudDeletePids
        (deletePost
          ⟨none, some "https://res.cloudinary.com/demo/video/upload/v7/patwa_toli/posts/clip.mp4",
            none⟩ (.ok "ok")).1 = ["patwa_toli/posts/clip"] :=
  claim_C2_amended_handle_resolution.2.1
    ⟨none, some "https://res.cloudinary.com/demo/video/upload/v7/patwa_toli/posts/clip.mp4",
      none⟩ (.ok "ok") "patwa_toli/posts/clip" rfl (by decide) (by decide)

/-- C3 counterexample: a URL with the structural shape
`.../upload/v<version>/<folder>/<name>.<ext>` that is not Cloudinary-hosted
yields `null`, not the joined post-version segments the claim requires. -/
theorem claim_C3_counterexample :
    specStructuralShape "https://example.com/upload/v123/folder/file.jpg" = true ∧
    getPublicIdFromUrl "https://example.com/upload/v123/folder/file.jpg" = none := by
  decide

/-- C3 (amended): for every URL containing `cloudinary.com` whose path
segments decompose as a prefix (without the token `upload` and without
version-like segments), then `upload`, then further non-version-like
segments, then the first version-like segment, then a nonempty tail,
`getPublicIdFromUrl` returns the joined tail with the trailing extension
removed; URLs without `cloudinary.com` yield `null` even when structurally
shaped (counterexample, and C9). -/
theorem claim_C3_amended_derive_handle
    (url : String) (pre mid rest : List (List Char)) (vseg : List Char)
    (hcloud : containsSub cloudinaryNeedle url.toList = true)
    (hsplit : splitOnChar '/' url.toList = pre ++ uploadTok :: (mid ++ vseg :: rest))
    (hpreU : ∀ p ∈ pre, p ≠ uploadTok)
    (hpreV : ∀ p ∈ pre, versionLike p = false)
    (hmidV : ∀ p ∈ mid, versionLike p = false)
    (hv : versionLike vseg = true)
    (hrest : rest ≠ []) :
    getPublicIdFromUrl url =
      some (String.mk (dropAfterLastDot (List.intercalate ['/'] rest))) := by
  unfold getPublicIdFromUrl
  rw [if_pos hcloud, hsplit,
    extractPublicId_decomp pre mid rest vseg hpreU hpreV hmidV hv hrest]
  rfl

/-- Witness for C3 (amended) at a canonical Cloudinary URL. -/
theorem claim_C3_witness :
    getPublicIdFromUrl "https://res.cloudinary.com/demo/image/upload/v123/folder/file.jpg" =
      some "folder/file" := by
  have h := claim_C3_amended_derive_handle
    "https://res.cloudinary.com/demo/image/upload/v123/folder/file.jpg"
    ["https:".toList, "".toList, "res.cloudinary.com".toList, "demo".toList,
      "image".toList]
    [] ["folder".toList, "file.jpg".toList] "v123".toList
    (by decide) (by decide) (by decide) (by decide) (by decide) (by decide) (by decide)
  exact h.trans (by decide)

end PatwaToli
